import Mathlib

/-!
Shallow embedding of the MicroPython SDL2 display driver module
(`src/sdl2.c`): the RGB565 pixel decoder, the blit engine `sdl2_show`,
the event translator `sdl2_poll_event`, the teardown `sdl2_deinit` and
the constructor `sdl2_make_new`.  Machine integers are modelled as
`Nat`/`Int`; the SDL backend is modelled as a trace of draw commands and
a FIFO list of raw events.
-/

namespace Sdl2

/-- Numeric values of the SDL event-type constants used by the switch in
`sdl2_poll_event` (values from the SDL2 headers). -/
def SDL_QUIT : Int := 0x100

/-- Value of SDL_KEYDOWN in the SDL2 headers. -/
def SDL_KEYDOWN : Int := 0x300

/-- Value of SDL_KEYUP in the SDL2 headers. -/
def SDL_KEYUP : Int := 0x301

/-- Value of SDL_MOUSEMOTION in the SDL2 headers. -/
def SDL_MOUSEMOTION : Int := 0x400

/-- Value of SDL_MOUSEBUTTONDOWN in the SDL2 headers. -/
def SDL_MOUSEBUTTONDOWN : Int := 0x401

/-- Value of SDL_MOUSEBUTTONUP in the SDL2 headers. -/
def SDL_MOUSEBUTTONUP : Int := 0x402

/-- Value of SDL_MOUSEWHEEL in the SDL2 headers. -/
def SDL_MOUSEWHEEL : Int := 0x403

/-- The configuration fields stored in `sdl2_obj_t` by `sdl2_make_new`
(window and renderer handles are kept abstract). Width, height and the
scales are positive integers per the module's contract, so they are
modelled as `Nat`; x and y may hold SDL position sentinels and stay `Int`. -/
structure Sdl2Obj where
  x : Int
  y : Int
  width : Nat
  height : Nat
  title : String
  window_flags : Int
  render_flags : Int
  x_scale : Nat
  y_scale : Nat
deriving Repr, DecidableEq

/-- C `int` division truncates toward zero, which is `Int.tdiv`. -/
def cdiv (a b : Int) : Int := Int.tdiv a b

/-- Red channel of the RGB565 decode in `sdl2_show`:
`(color >> 11) * 255 / 31`. -/
def decodeR (color : Nat) : Nat := (color >>> 11) * 255 / 31

/-- Green channel of the RGB565 decode in `sdl2_show`:
`((color >> 5) & 0x3F) * 255 / 63`. -/
def decodeG (color : Nat) : Nat := ((color >>> 5) &&& 0x3F) * 255 / 63

/-- Blue channel of the RGB565 decode in `sdl2_show`:
`(color & 0x1F) * 255 / 31`. -/
def decodeB (color : Nat) : Nat := (color &&& 0x1F) * 255 / 31

/-- A drawing command issued to the SDL renderer backend. -/
inductive DrawCmd where
  | setRenderDrawColor (r g b a : Nat)
  | renderDrawPoint (x y : Nat)
  | renderFillRect (x y w h : Nat)
  | renderPresent
deriving Repr, DecidableEq

/-- The paint command `sdl2_show` issues for pixel `(x, y)`: a single
point when both scales are 1, otherwise the filled rectangle at
`(x * xScale, y * yScale)` of size `xScale` by `yScale`. -/
def paintCmd (xScale yScale x y : Nat) : DrawCmd :=
  if xScale = 1 ∧ yScale = 1 then DrawCmd.renderDrawPoint x y
  else DrawCmd.renderFillRect (x * xScale) (y * yScale) xScale yScale

/-- The set of window pixels a draw command paints, as a decidable test. -/
def cmdCovers (c : DrawCmd) (px py : Nat) : Bool :=
  match c with
  | DrawCmd.renderDrawPoint x y => px == x && py == y
  | DrawCmd.renderFillRect x y w h =>
      decide (x ≤ px) && decide (px < x + w) && decide (y ≤ py) && decide (py < y + h)
  | _ => false

/-- Reads the 16-bit word at index `i` of a byte buffer, native
little-endian, as `sdl2_show` does through its `uint16_t *` view. -/
def bufWord (bytes : List Nat) (i : Nat) : Nat :=
  bytes.getD (2 * i) 0 + 256 * bytes.getD (2 * i + 1) 0

/-- The two commands `sdl2_show` issues for pixel `(x, y)`: set the
decoded draw color with full alpha, then paint the point or rectangle.
The buffer index is `i = y * width + x`, matching the running `i++`. -/
def pixelCmds (self : Sdl2Obj) (bytes : List Nat) (x y : Nat) : List DrawCmd :=
  let color := bufWord bytes (y * self.width + x)
  [DrawCmd.setRenderDrawColor (decodeR color) (decodeG color) (decodeB color) 255,
   paintCmd self.x_scale self.y_scale x y]

/-- Full command trace of a successful `sdl2_show` call: row-major
iteration over all pixels followed by the present. -/
def showCmds (self : Sdl2Obj) (bytes : List Nat) : List DrawCmd :=
  ((List.range self.height).flatMap fun y =>
    (List.range self.width).flatMap fun x => pixelCmds self bytes x y)
  ++ [DrawCmd.renderPresent]

/-- MicroPython exception classes raised by the module: `ValueError` for
caller contract violations, `RuntimeError` for SDL backend failures. -/
inductive MpErr where
  | valueError (msg : String)
  | runtimeError (msg : String)
deriving Repr, DecidableEq

/-- Embedding of `sdl2_show`: the buffer is `none` when
`bufinfo.buf == NULL`, otherwise the raw bytes. Returns the draw
commands issued together with the raised error, if any; the precondition
checks run before any drawing, so on a contract violation the trace is
empty. -/
def sdl2_show (self : Sdl2Obj) (buf : Option (List Nat)) :
    List DrawCmd × Option MpErr :=
  match buf with
  | none => ([], some (MpErr.valueError "no buffer"))
  | some bytes =>
    if bytes.length ≠ self.width * self.height * 2 then
      ([], some (MpErr.valueError "buffer size mismatch"))
    else
      (showCmds self bytes, none)

/-- Key payload of a raw SDL event (`event.key.keysym`), already resolved
to the key name as `sdl2_poll_event` does via `SDL_GetKeyName`. -/
structure KeyData where
  keyname : String
  mod : Int
deriving Repr, DecidableEq

/-- Mouse-motion payload of a raw SDL event (`event.motion`). -/
structure MotionData where
  x : Int
  y : Int
  xrel : Int
  yrel : Int
  state : Int
deriving Repr, DecidableEq

/-- Mouse-button payload of a raw SDL event (`event.button`). -/
structure ButtonData where
  x : Int
  y : Int
  button : Int
deriving Repr, DecidableEq

/-- Mouse-wheel payload of a raw SDL event (`event.wheel`). The precise
and mouse coordinates are carried so that the translator's treatment of
them can be stated. -/
structure WheelData where
  x : Int
  y : Int
  direction : Int
  preciseX : Int
  preciseY : Int
  mouseX : Int
  mouseY : Int
deriving Repr, DecidableEq

/-- A raw SDL event: the numeric type tag and the union payloads read by
`sdl2_poll_event` (each payload is only consulted on its matching tag,
mirroring the C union). -/
structure RawEvent where
  etype : Int
  key : KeyData
  motion : MotionData
  button : ButtonData
  wheel : WheelData
deriving Repr, DecidableEq

/-- An element of the tuple returned by `sdl2_poll_event`. `null` models
a zero `mp_obj_t` slot, as produced by a zero-initialized element of a C
array initializer. -/
inductive EvVal where
  | int (i : Int)
  | str (s : String)
  | null
deriving Repr, DecidableEq

/-- The switch body of `sdl2_poll_event`: maps one raw event to the
returned tuple. The wheel branch builds an 8-element array with only 4
initializers, so its last four slots are the zero-filled `null`. -/
def sdl2_translate (self : Sdl2Obj) (event : RawEvent) : List EvVal :=
  if event.etype = SDL_KEYDOWN ∨ event.etype = SDL_KEYUP then
    [EvVal.int event.etype, EvVal.str event.key.keyname, EvVal.int event.key.mod]
  else if event.etype = SDL_MOUSEMOTION then
    [EvVal.int event.etype,
     EvVal.int (cdiv event.motion.x self.x_scale),
     EvVal.int (cdiv event.motion.y self.y_scale),
     EvVal.int (cdiv event.motion.xrel self.x_scale),
     EvVal.int (cdiv event.motion.yrel self.y_scale),
     EvVal.int event.motion.state]
  else if event.etype = SDL_MOUSEBUTTONDOWN ∨ event.etype = SDL_MOUSEBUTTONUP then
    [EvVal.int event.etype,
     EvVal.int (cdiv event.button.x self.x_scale),
     EvVal.int (cdiv event.button.y self.y_scale),
     EvVal.int event.button.button]
  else if event.etype = SDL_MOUSEWHEEL then
    [EvVal.int event.etype,
     EvVal.int (cdiv event.wheel.x self.x_scale),
     EvVal.int (cdiv event.wheel.y self.x_scale),
     EvVal.int event.wheel.direction,
     EvVal.null, EvVal.null, EvVal.null, EvVal.null]
  else
    [EvVal.int event.etype]

/-- Embedding of `sdl2_poll_event`: `SDL_PollEvent` is modelled as
popping the head of the host FIFO queue; with an empty queue the call
returns `None` at once, otherwise the translated head event. -/
def sdl2_poll_event (self : Sdl2Obj) (queue : List RawEvent) :
    Option (List EvVal) × List RawEvent :=
  match queue with
  | [] => (none, [])
  | e :: rest => (some (sdl2_translate self e), rest)

/-- Repeatedly calling `sdl2_poll_event` until the queue is drained,
collecting the returned events in order. -/
def drainEvents (self : Sdl2Obj) : List RawEvent → List (List EvVal)
  | [] => []
  | e :: rest =>
      ((sdl2_poll_event self (e :: rest)).fst.getD []) :: drainEvents self rest

/-- Whole-module state threaded through the operations: the object's
stored configuration, the host event queue, the accumulated draw trace
and whether the process-wide SDL subsystem is initialized. -/
structure Machine where
  obj : Sdl2Obj
  queue : List RawEvent
  trace : List DrawCmd
  subsysOpen : Bool
deriving Repr, DecidableEq

/-- Modelled from the spec: `SDL_Quit` (external SDL library) globally
releases the display subsystem; releasing an already-released subsystem
leaves it released. -/
def SDL_Quit (s : Machine) : Machine := { s with subsysOpen := false }

/-- The `sdl2_show` call as a state transformer: config fields are never
written; issued commands are appended to the trace. -/
def stepShow (s : Machine) (buf : Option (List Nat)) : Machine × Option MpErr :=
  let r := sdl2_show s.obj buf
  ({ s with trace := s.trace ++ r.fst }, r.snd)

/-- The `sdl2_poll_event` call as a state transformer: config fields are
never written; the consumed event is removed from the queue. -/
def stepPoll (s : Machine) : Machine × Option (List EvVal) :=
  let r := sdl2_poll_event s.obj s.queue
  ({ s with queue := r.snd }, r.fst)

/-- Embedding of `sdl2_deinit`: calls `SDL_Quit` unconditionally and
returns `None`; the function has no failure path, so the error component
is always `none`. -/
def sdl2_deinit (s : Machine) : Machine × Option MpErr :=
  (SDL_Quit s, none)

/-- The window-creation request `sdl2_make_new` passes to
`SDL_CreateWindow`. -/
structure WindowReq where
  title : String
  x : Int
  y : Int
  w : Nat
  h : Nat
  flags : Int
deriving Repr, DecidableEq

/-- Embedding of `sdl2_make_new` after argument parsing: stores the nine
configuration fields on the object and requests a window of pixel size
`width * x_scale` by `height * y_scale`. -/
def sdl2_make_new (width height : Nat) (x y : Int) (x_scale y_scale : Nat)
    (title : String) (window_flags render_flags : Int) : Sdl2Obj × WindowReq :=
  let self : Sdl2Obj :=
    { x := x, y := y, width := width, height := height, title := title,
      window_flags := window_flags, render_flags := render_flags,
      x_scale := x_scale, y_scale := y_scale }
  (self,
   { title := self.title, x := self.x, y := self.y,
     w := self.width * self.x_scale, h := self.height * self.y_scale,
     flags := self.window_flags })

/-- A concrete object with the module's default configuration, used to
instantiate universally quantified theorems. -/
def sampleObj : Sdl2Obj :=
  { x := 0, y := 0, width := 320, height := 240, title := "MicroPython",
    window_flags := 0, render_flags := 0, x_scale := 1, y_scale := 1 }

/-- Rescaling an n-bit channel value bounded by the channel maximum stays
within the 8-bit range. -/
theorem scaleChannel_le (c n : Nat) (hn : 0 < n) (h : c ≤ n) : c * 255 / n ≤ 255 := by
  calc c * 255 / n ≤ n * 255 / n := Nat.div_le_div_right (Nat.mul_le_mul_right 255 h)
  _ = 255 := by rw [Nat.mul_comm, Nat.mul_div_cancel _ hn]

/-- Division by a positive number equals `x` exactly on the half-open
interval of length `xs` starting at `x * xs`. -/
theorem div_eq_iff_between (px xs x : Nat) (hxs : 0 < xs) :
    px / xs = x ↔ x * xs ≤ px ∧ px < x * xs + xs := by
  constructor
  · intro h
    subst h
    refine ⟨Nat.div_mul_le_self px xs, ?_⟩
    have h2 : px < xs * (px / xs) + xs := by
      conv_lhs => rw [← Nat.div_add_mod px xs]
      exact Nat.add_lt_add_left (Nat.mod_lt px hxs) _
    rw [Nat.mul_comm] at h2
    exact h2
  · rintro ⟨h1, h2⟩
    have hle : x ≤ px / xs := (Nat.le_div_iff_mul_le hxs).mpr h1
    have hlt : px / xs < x + 1 :=
      (Nat.div_lt_iff_lt_mul hxs).mpr (by rw [Nat.succ_mul]; omega)
    omega

/-- The pixels painted by the command for source pixel `(x, y)` are
exactly those whose scaled-down coordinates are `(x, y)`, for both the
point branch and the rectangle branch. -/
theorem cmdCovers_paintCmd_iff (xs ys x y px py : Nat) (hxs : 0 < xs) (hys : 0 < ys) :
    cmdCovers (paintCmd xs ys x y) px py = true ↔ px / xs = x ∧ py / ys = y := by
  unfold paintCmd
  by_cases hc : xs = 1 ∧ ys = 1
  · obtain ⟨h1, h2⟩ := hc
    subst h1
    subst h2
    simp [cmdCovers, Nat.div_one]
  · rw [if_neg hc]
    simp only [cmdCovers, Bool.and_eq_true, decide_eq_true_eq]
    rw [div_eq_iff_between px xs x hxs, div_eq_iff_between py ys y hys]
    tauto

/-- C1: the pixel decoder extracts bits 15-11, 10-5 and 4-0 and rescales
them by `* 255 / (2^n - 1)` with truncating division, and every channel
of every 16-bit input lies in [0, 255] (totality and determinism hold by
construction, the decoder being a pure function). -/
theorem decode_rgb565_correct (v : Nat) (h : v < 65536) :
    decodeR v = v / 2 ^ 11 % 2 ^ 5 * 255 / 31 ∧
    decodeG v = v / 2 ^ 5 % 2 ^ 6 * 255 / 63 ∧
    decodeB v = v % 2 ^ 5 * 255 / 31 ∧
    decodeR v ≤ 255 ∧ decodeG v ≤ 255 ∧ decodeB v ≤ 255 := by
  have hr : v >>> 11 = v / 2 ^ 11 := Nat.shiftRight_eq_div_pow v 11
  have hrlt : v / 2 ^ 11 < 2 ^ 5 := by
    refine (Nat.div_lt_iff_lt_mul (by norm_num)).mpr ?_
    norm_num
    omega
  have hg : (v >>> 5) &&& 0x3F = v / 2 ^ 5 % 2 ^ 6 := by
    rw [Nat.shiftRight_eq_div_pow v 5]
    rw [show (0x3F : Nat) = 2 ^ 6 - 1 from by norm_num]
    exact Nat.and_pow_two_sub_one_eq_mod (v / 2 ^ 5) 6
  have hb : v &&& 0x1F = v % 2 ^ 5 := by
    rw [show (0x1F : Nat) = 2 ^ 5 - 1 from by norm_num]
    exact Nat.and_pow_two_sub_one_eq_mod v 5
  refine ⟨?_, ?_, ?_, ?_, ?_, ?_⟩
  · rw [decodeR, hr, Nat.mod_eq_of_lt hrlt]
  · rw [decodeG, hg]
  · rw [decodeB, hb]
  · rw [decodeR, hr]
    exact scaleChannel_le _ 31 (by norm_num) (by omega)
  · rw [decodeG]
    exact scaleChannel_le _ 63 (by norm_num) (Nat.and_le_right)
  · rw [decodeB]
    exact scaleChannel_le _ 31 (by norm_num) (Nat.and_le_right)

/-- Witness for C1 at the all-ones input 65535. -/
theorem decode_rgb565_correct_witness :
    (65535 : Nat) < 65536 ∧
    (decodeR 65535 = 65535 / 2 ^ 11 % 2 ^ 5 * 255 / 31 ∧
     decodeG 65535 = 65535 / 2 ^ 5 % 2 ^ 6 * 255 / 63 ∧
     decodeB 65535 = 65535 % 2 ^ 5 * 255 / 31 ∧
     decodeR 65535 ≤ 255 ∧ decodeG 65535 ≤ 255 ∧ decodeB 65535 ≤ 255) :=
  ⟨by decide, decode_rgb565_correct 65535 (by decide)⟩

/-- C2: with both scales 1 each pixel is painted as the single point
`(x, y)`, otherwise as the rectangle at `(x * xScale, y * yScale)` of
size `xScale` by `yScale`; over all pixels of a `w` by `h` frame the
painted tiles are pairwise disjoint and exactly cover the scaled canvas
`[0, w * xScale) x [0, h * yScale)`. -/
theorem show_scaling_partition (w h xs ys : Nat) (hxs : 0 < xs) (hys : 0 < ys) :
    (∀ px py, px < w * xs → py < h * ys →
      ∃! p : Nat × Nat, p.1 < w ∧ p.2 < h ∧
        cmdCovers (paintCmd xs ys p.1 p.2) px py = true) ∧
    (∀ x y px py, x < w → y < h →
      cmdCovers (paintCmd xs ys x y) px py = true → px < w * xs ∧ py < h * ys) ∧
    ((xs = 1 ∧ ys = 1) → ∀ x y, paintCmd xs ys x y = DrawCmd.renderDrawPoint x y) ∧
    (¬(xs = 1 ∧ ys = 1) →
      ∀ x y, paintCmd xs ys x y = DrawCmd.renderFillRect (x * xs) (y * ys) xs ys) := by
  refine ⟨?_, ?_, ?_, ?_⟩
  · intro px py hpx hpy
    refine ⟨(px / xs, py / ys),
      ⟨(Nat.div_lt_iff_lt_mul hxs).mpr hpx, (Nat.div_lt_iff_lt_mul hys).mpr hpy,
       (cmdCovers_paintCmd_iff xs ys _ _ px py hxs hys).mpr ⟨rfl, rfl⟩⟩, ?_⟩
    rintro ⟨a, b⟩ ⟨_, _, hcov⟩
    obtain ⟨e1, e2⟩ := (cmdCovers_paintCmd_iff xs ys a b px py hxs hys).mp hcov
    exact Prod.ext e1.symm e2.symm
  · intro x y px py hx hy hcov
    obtain ⟨e1, e2⟩ := (cmdCovers_paintCmd_iff xs ys x y px py hxs hys).mp hcov
    exact ⟨(Nat.div_lt_iff_lt_mul hxs).mp (e1 ▸ hx),
           (Nat.div_lt_iff_lt_mul hys).mp (e2 ▸ hy)⟩
  · rintro ⟨h1, h2⟩ x y
    simp [paintCmd, h1, h2]
  · intro hc x y
    unfold paintCmd
    rw [if_neg hc]

/-- Witness for C2 at the spec's example: width 1, height 1, xScale 3,
yScale 2; canvas pixel (2, 1) is covered by exactly one tile. -/
theorem show_scaling_partition_witness :
    ∃! p : Nat × Nat, p.1 < 1 ∧ p.2 < 1 ∧
      cmdCovers (paintCmd 3 2 p.1 p.2) 2 1 = true :=
  (show_scaling_partition 1 1 3 2 (by decide) (by decide)).1 2 1 (by decide) (by decide)

/-- C3: a polled pointer-motion event yields the 6-tuple with both
absolute and relative coordinates divided by the matching axis scale
(truncating division); in particular with scales (2, 1) the raw motion
(10, 10, 4, 4, mask) normalizes to (kind, 5, 10, 2, 4, mask). -/
theorem translate_motion_scales (self : Sdl2Obj) (e : RawEvent)
    (h : e.etype = SDL_MOUSEMOTION) :
    sdl2_translate self e =
      [EvVal.int e.etype,
       EvVal.int (cdiv e.motion.x self.x_scale),
       EvVal.int (cdiv e.motion.y self.y_scale),
       EvVal.int (cdiv e.motion.xrel self.x_scale),
       EvVal.int (cdiv e.motion.yrel self.y_scale),
       EvVal.int e.motion.state] ∧
    (∀ m : Int,
      sdl2_translate
        { x := 0, y := 0, width := 320, height := 240, title := "MicroPython",
          window_flags := 0, render_flags := 0, x_scale := 2, y_scale := 1 }
        { etype := SDL_MOUSEMOTION, key := ⟨"", 0⟩,
          motion := ⟨10, 10, 4, 4, m⟩, button := ⟨0, 0, 0⟩,
          wheel := ⟨0, 0, 0, 0, 0, 0, 0⟩ } =
      [EvVal.int SDL_MOUSEMOTION, EvVal.int 5, EvVal.int 10,
       EvVal.int 2, EvVal.int 4, EvVal.int m]) := by
  constructor
  · have hne : ¬(e.etype = SDL_KEYDOWN ∨ e.etype = SDL_KEYUP) := by
      rw [h]
      decide
    rw [sdl2_translate, if_neg hne, if_pos h]
  · intro m
    simp +decide [sdl2_translate]

/-- Witness for C3 at a concrete motion event. -/
theorem translate_motion_scales_witness :
    sdl2_translate sampleObj
      { etype := SDL_MOUSEMOTION, key := ⟨"", 0⟩,
        motion := ⟨7, 9, 3, 2, 1⟩, button := ⟨0, 0, 0⟩,
        wheel := ⟨0, 0, 0, 0, 0, 0, 0⟩ } =
      [EvVal.int SDL_MOUSEMOTION, EvVal.int (cdiv 7 1), EvVal.int (cdiv 9 1),
       EvVal.int (cdiv 3 1), EvVal.int (cdiv 2 1), EvVal.int 1] :=
  (translate_motion_scales sampleObj
    { etype := SDL_MOUSEMOTION, key := ⟨"", 0⟩,
      motion := ⟨7, 9, 3, 2, 1⟩, button := ⟨0, 0, 0⟩,
      wheel := ⟨0, 0, 0, 0, 0, 0, 0⟩ } rfl).1

/-- C4 counterexample: the wheel branch zero-fills tuple slots 4-7, so
they are null placeholders, not the raw event's preciseX, preciseY,
mouseX, mouseY values (here 7, 8, 9, 10). -/
theorem translate_wheel_null_slots :
    sdl2_translate
      { x := 0, y := 0, width := 320, height := 240, title := "MicroPython",
        window_flags := 0, render_flags := 0, x_scale := 1, y_scale := 1 }
      { etype := SDL_MOUSEWHEEL, key := ⟨"", 0⟩,
        motion := ⟨0, 0, 0, 0, 0⟩, button := ⟨0, 0, 0⟩,
        wheel := ⟨2, 3, 0, 7, 8, 9, 10⟩ } =
      [EvVal.int SDL_MOUSEWHEEL, EvVal.int 2, EvVal.int 3, EvVal.int 0,
       EvVal.null, EvVal.null, EvVal.null, EvVal.null] ∧
    (sdl2_translate
      { x := 0, y := 0, width := 320, height := 240, title := "MicroPython",
        window_flags := 0, render_flags := 0, x_scale := 1, y_scale := 1 }
      { etype := SDL_MOUSEWHEEL, key := ⟨"", 0⟩,
        motion := ⟨0, 0, 0, 0, 0⟩, button := ⟨0, 0, 0⟩,
        wheel := ⟨2, 3, 0, 7, 8, 9, 10⟩ }).getD 4 EvVal.null ≠ EvVal.int 7 := by
  constructor
  · decide
  · decide

/-- C5: a missing buffer or a buffer whose byte length differs from
`width * height * 2` makes `sdl2_show` raise a ValueError with an empty
draw trace; the error is never the RuntimeError class reserved for
backend drawing failures. -/
theorem show_rejects_bad_buffer (self : Sdl2Obj) (bytes : List Nat)
    (h : bytes.length ≠ self.width * self.height * 2) :
    sdl2_show self (some bytes) = ([], some (MpErr.valueError "buffer size mismatch")) ∧
    sdl2_show self none = ([], some (MpErr.valueError "no buffer")) ∧
    (∀ msg, (sdl2_show self (some bytes)).snd ≠ some (MpErr.runtimeError msg)) := by
  refine ⟨?_, rfl, ?_⟩
  · rw [sdl2_show, if_pos h]
  · intro msg
    rw [sdl2_show, if_pos h]
    simp

/-- Witness for C5: a 1-by-1 frame with a buffer one byte short
(length `width * height * 2 - 1 = 1`). -/
theorem show_rejects_bad_buffer_witness :
    sdl2_show
      { x := 0, y := 0, width := 1, height := 1, title := "MicroPython",
        window_flags := 0, render_flags := 0, x_scale := 1, y_scale := 1 }
      (some [0]) = ([], some (MpErr.valueError "buffer size mismatch")) :=
  (show_rejects_bad_buffer
    { x := 0, y := 0, width := 1, height := 1, title := "MicroPython",
      window_flags := 0, render_flags := 0, x_scale := 1, y_scale := 1 }
    [0] (by decide)).1

/-- C6: with an empty host queue `sdl2_poll_event` returns the absent
sentinel without consuming anything; with a nonempty queue it consumes
and translates exactly the head event; draining the queue delivers the
translated events in queue order. -/
theorem poll_event_fifo (self : Sdl2Obj) :
    sdl2_poll_event self [] = (none, []) ∧
    (∀ e q, sdl2_poll_event self (e :: q) = (some (sdl2_translate self e), q)) ∧
    (∀ q, drainEvents self q = q.map (sdl2_translate self)) := by
  refine ⟨rfl, fun e q => rfl, ?_⟩
  intro q
  induction q with
  | nil => rfl
  | cons e rest ih => simp [drainEvents, sdl2_poll_event, ih]

/-- C7: every event kind outside the six explicitly handled ones,
including the quit request, translates to the single-element tuple
`(kind,)`, and every translated tuple carries the event kind at
index 0. -/
theorem translate_fallback_singleton (self : Sdl2Obj) (e : RawEvent)
    (h : e.etype ≠ SDL_KEYDOWN ∧ e.etype ≠ SDL_KEYUP ∧
         e.etype ≠ SDL_MOUSEMOTION ∧ e.etype ≠ SDL_MOUSEBUTTONDOWN ∧
         e.etype ≠ SDL_MOUSEBUTTONUP ∧ e.etype ≠ SDL_MOUSEWHEEL) :
    sdl2_translate self e = [EvVal.int e.etype] ∧
    (∀ e2 : RawEvent, (sdl2_translate self e2).head? = some (EvVal.int e2.etype)) := by
  obtain ⟨h1, h2, h3, h4, h5, h6⟩ := h
  constructor
  · simp [sdl2_translate, h1, h2, h3, h4, h5, h6]
  · intro e2
    unfold sdl2_translate
    repeat' split
    all_goals rfl

/-- Witness for C7 at the quit event. -/
theorem translate_fallback_singleton_witness :
    sdl2_translate sampleObj
      { etype := SDL_QUIT, key := ⟨"", 0⟩, motion := ⟨0, 0, 0, 0, 0⟩,
        button := ⟨0, 0, 0⟩, wheel := ⟨0, 0, 0, 0, 0, 0, 0⟩ } =
      [EvVal.int SDL_QUIT] :=
  (translate_fallback_singleton sampleObj
    { etype := SDL_QUIT, key := ⟨"", 0⟩, motion := ⟨0, 0, 0, 0, 0⟩,
      button := ⟨0, 0, 0⟩, wheel := ⟨0, 0, 0, 0, 0, 0, 0⟩ }
    (by refine ⟨?_, ?_, ?_, ?_, ?_, ?_⟩ <;> decide)).1

/-- C8: `sdl2_deinit` never reports an error, is a no-op on an
already-released subsystem, and a second consecutive call reproduces the
first call's state with no error. -/
theorem deinit_idempotent (s : Machine) :
    (sdl2_deinit s).snd = none ∧
    (s.subsysOpen = false → sdl2_deinit s = (s, none)) ∧
    sdl2_deinit (sdl2_deinit s).fst = ((sdl2_deinit s).fst, none) := by
  refine ⟨rfl, ?_, rfl⟩
  intro h
  cases s
  simp [sdl2_deinit, SDL_Quit]
  cases h
  rfl

/-- Witness for C8 on a concrete released machine state. -/
theorem deinit_idempotent_witness :
    sdl2_deinit ⟨sampleObj, [], [], false⟩ = (⟨sampleObj, [], [], false⟩, none) :=
  (deinit_idempotent ⟨sampleObj, [], [], false⟩).2.1 rfl

/-- C9: `sdl2_show`, `sdl2_poll_event` and `sdl2_deinit` leave the whole
stored object, hence all nine configuration fields, unchanged. -/
theorem ops_preserve_config (s : Machine) (buf : Option (List Nat)) :
    (stepShow s buf).fst.obj = s.obj ∧
    (stepPoll s).fst.obj = s.obj ∧
    (sdl2_deinit s).fst.obj = s.obj :=
  ⟨rfl, rfl, rfl⟩

/-- C10: the constructor requests a host window of pixel size
`width * x_scale` by `height * y_scale`, the scaled canvas size. -/
theorem make_new_window_scaled (width height : Nat) (x y : Int)
    (x_scale y_scale : Nat) (title : String) (window_flags render_flags : Int) :
    (sdl2_make_new width height x y x_scale y_scale
        title window_flags render_flags).snd.w = width * x_scale ∧
    (sdl2_make_new width height x y x_scale y_scale
        title window_flags render_flags).snd.h = height * y_scale :=
  ⟨rfl, rfl⟩

end Sdl2
